import Mathlib

/-
Verification of klient/wait/conditions/conditions.go.

The Go file defines a `Condition` builder whose factory methods return
polling predicates of shape `func() (done bool, err error)`.  Each
predicate re-fetches the target object through `c.resources.Get` and
inspects its fields.  We embed the predicates shallowly: the outcome of
the fetch (an API error, or the refreshed object state) is passed as an
explicit argument of type `Except GetError K8sObject`, and a predicate
returns a `PollOutcome` holding the diagnostic log lines it emitted and
its `PredResult` (a normal `(done, err)` return, or a runtime panic from
a failed dynamic type assertion).
-/

namespace Conditions

/-- The `metav1.StatusReason` string that `apierrors.IsNotFound` tests for. -/
def metav1.StatusReasonNotFound : String := "NotFound"

/-- An error returned by `resources.Get`, carrying its API status reason. -/
structure GetError where
  reason : String
deriving DecidableEq, Repr

/-- Embeds `errors.IsNotFound` from k8s.io/apimachinery: true exactly when
the status reason is `NotFound`. -/
def errors.IsNotFound (e : GetError) : Bool :=
  e.reason == metav1.StatusReasonNotFound

/-- One entry of `batchv1.Job.Status.Conditions`: its `Type`
(`batchv1.JobConditionType`, a string) and `Status`
(`v1.ConditionStatus`, a string). -/
structure JobCondition where
  type : String
  status : String
deriving DecidableEq, Repr

/-- The part of `batchv1.JobStatus` the predicates read. -/
structure JobStatus where
  conditions : List JobCondition
deriving DecidableEq, Repr

/-- A `batchv1.Job`: object metadata (name, namespace) and status. -/
structure Job where
  name : String
  nspace : String
  status : JobStatus
deriving DecidableEq, Repr

/-- One entry of `v1.Pod.Status.Conditions`: its `Type`
(`v1.PodConditionType`, a string) and `Status` (`v1.ConditionStatus`). -/
structure PodCondition where
  type : String
  status : String
deriving DecidableEq, Repr

/-- The part of `v1.PodStatus` the predicates read: the phase string and
the condition list. -/
structure PodStatus where
  phase : String
  conditions : List PodCondition
deriving DecidableEq, Repr

/-- A `v1.Pod`: object metadata (name, namespace) and status. -/
structure Pod where
  name : String
  nspace : String
  status : PodStatus
deriving DecidableEq, Repr

/-- A `k8s.Object` handle: its dynamic type is a Pod, a Job, or some
other resource kind (`generic`). -/
inductive K8sObject where
  | pod (p : Pod)
  | job (j : Job)
  | generic (name : String) (nspace : String)
deriving DecidableEq, Repr

/-- The `GetName()` accessor of a `k8s.Object`. -/
def K8sObject.GetName : K8sObject → String
  | .pod p => p.name
  | .job j => j.name
  | .generic n _ => n

/-- The `GetNamespace()` accessor of a `k8s.Object`. -/
def K8sObject.GetNamespace : K8sObject → String
  | .pod p => p.nspace
  | .job j => j.nspace
  | .generic _ ns => ns

/-- Result of one invocation of a `ConditionFunc`: either a normal Go
return `(done, err)` (with `err = none` embedding a nil error), or a
runtime panic raised by a failed dynamic type assertion. -/
inductive PredResult where
  | ret (done : Bool) (err : Option GetError)
  | panicked (msg : String)
deriving DecidableEq, Repr

/-- True exactly when the invocation panicked instead of returning. -/
def PredResult.isPanic : PredResult → Bool
  | .panicked _ => true
  | .ret _ _ => false

/-- True unless the invocation returned `done = true` together with a
non-nil error. -/
def PredResult.errNonNilImpliesNotDone : PredResult → Bool
  | .ret true (some _) => false
  | _ => true

/-- What one invocation of a predicate produces: the log lines emitted
through `c.log` and the returned (or panicked) result. -/
structure PollOutcome where
  logs : List String
  result : PredResult
deriving DecidableEq, Repr

/-- The `Condition` builder.  The `resources` handle it stores in Go is
external to this component; fetch outcomes are supplied explicitly to
each predicate, so only the `verbose` flag remains as state. -/
structure Condition where
  verbose : Bool
deriving DecidableEq, Repr

/-- Embeds `New(r)`: constructs a builder with verbose logging off. -/
def Condition.New : Condition := { verbose := false }

/-- Embeds `WithVerboseLog()`: enables verbose logging. -/
def Condition.WithVerboseLog (c : Condition) : Condition :=
  { c with verbose := true }

/-- Embeds `c.log(...)`: the list of lines actually written, which is
the given message when verbose is on and nothing otherwise. -/
def Condition.log (c : Condition) (message : String) : List String :=
  if c.verbose then [message] else []

/-- Embeds `ResourceScaled(obj, scaleFetcher, replica)`: on a fetch
error, swallow it and return `(false, nil)`; on success, compare the
scale fetched from the refreshed object with `replica`. -/
def Condition.ResourceScaled (c : Condition) (obj : K8sObject)
    (scaleFetcher : K8sObject → Int) (replica : Int)
    (fetch : Except GetError K8sObject) : PollOutcome :=
  let logs := c.log ("Checking if the resource " ++ obj.GetNamespace ++ "/" ++
    obj.GetName ++ " has been scaled to " ++ toString replica)
  match fetch with
  | .error _ => { logs := logs, result := .ret false none }
  | .ok fetched => { logs := logs, result := .ret (scaleFetcher fetched == replica) none }

/-- Embeds `ResourceDeleted(obj)`: a not-found fetch error means the
resource is gone (`(true, nil)`); any other fetch error is propagated as
`(false, err)`; a successful fetch means it still exists (`(false, nil)`). -/
def Condition.ResourceDeleted (c : Condition) (obj : K8sObject)
    (fetch : Except GetError K8sObject) : PollOutcome :=
  let logs := c.log ("Checking for Resource deletion of " ++ obj.GetNamespace ++
    "/" ++ obj.GetName)
  match fetch with
  | .error e =>
    if errors.IsNotFound e then { logs := logs, result := .ret true none }
    else { logs := logs, result := .ret false (some e) }
  | .ok _ => { logs := logs, result := .ret false none }

/-- Embeds `JobConditionMatch(job, conditionType, conditionState)`: a
fetch error is propagated as `(false, err)`; on success the fetched
object is asserted to be a `*batchv1.Job` (panicking otherwise) and
`done` is set by scanning its status condition list for an entry whose
type and status both match. -/
def Condition.JobConditionMatch (c : Condition) (job : K8sObject)
    (conditionType : String) (conditionState : String)
    (fetch : Except GetError K8sObject) : PollOutcome :=
  let logs := c.log ("Checking for Job Condition " ++ conditionType ++ "/" ++
    conditionState ++ " on " ++ job.GetNamespace ++ "/" ++ job.GetName)
  match fetch with
  | .error e => { logs := logs, result := .ret false (some e) }
  | .ok fetched =>
    match fetched with
    | .job j =>
      let done := j.status.conditions.foldl
        (fun done cond =>
          if cond.type == conditionType && cond.status == conditionState then true else done)
        false
      { logs := logs, result := .ret done none }
    | _ => { logs := logs,
             result := .panicked "interface conversion: k8s.Object is not *batchv1.Job" }

/-- Embeds `PodConditionMatch(pod, conditionType, conditionState)`: a
fetch error is propagated as `(false, err)`; on success the fetched
object is asserted to be a `*v1.Pod` (panicking otherwise) and `done` is
set by scanning its status condition list for an entry whose type and
status both match. -/
def Condition.PodConditionMatch (c : Condition) (pod : K8sObject)
    (conditionType : String) (conditionState : String)
    (fetch : Except GetError K8sObject) : PollOutcome :=
  let logs := c.log ("Checking for Pod Condition " ++ conditionType ++ "/" ++
    conditionState ++ " on " ++ pod.GetNamespace ++ "/" ++ pod.GetName)
  match fetch with
  | .error e => { logs := logs, result := .ret false (some e) }
  | .ok fetched =>
    match fetched with
    | .pod p =>
      let done := p.status.conditions.foldl
        (fun done cond =>
          if cond.type == conditionType && cond.status == conditionState then true else done)
        false
      { logs := logs, result := .ret done none }
    | _ => { logs := logs,
             result := .panicked "interface conversion: k8s.Object is not *v1.Pod" }

/-- Embeds `PodPhaseMatch(pod, phase)`: a fetch error is propagated as
`(false, err)`; on success the fetched object is asserted to be a
`*v1.Pod` (panicking otherwise) and its status phase is compared with
the given phase. -/
def Condition.PodPhaseMatch (c : Condition) (pod : K8sObject) (phase : String)
    (fetch : Except GetError K8sObject) : PollOutcome :=
  let logs := c.log ("Checking for Pod " ++ phase ++ " Condition of " ++
    pod.GetNamespace ++ "/" ++ pod.GetName)
  match fetch with
  | .error e => { logs := logs, result := .ret false (some e) }
  | .ok fetched =>
    match fetched with
    | .pod p => { logs := logs, result := .ret (p.status.phase == phase) none }
    | _ => { logs := logs,
             result := .panicked "interface conversion: k8s.Object is not *v1.Pod" }

/-- The constant `v1.PodReady` (a `v1.PodConditionType`). -/
def v1.PodReady : String := "Ready"

/-- The constant `v1.ContainersReady` (a `v1.PodConditionType`). -/
def v1.ContainersReady : String := "ContainersReady"

/-- The constant `v1.PodRunning` (a `v1.PodPhase`). -/
def v1.PodRunning : String := "Running"

/-- The constant `v1.ConditionTrue` (a `v1.ConditionStatus`). -/
def v1.ConditionTrue : String := "True"

/-- The constant `batchv1.JobComplete` (a `batchv1.JobConditionType`). -/
def batchv1.JobComplete : String := "Complete"

/-- The constant `batchv1.JobFailed` (a `batchv1.JobConditionType`). -/
def batchv1.JobFailed : String := "Failed"

/-- Embeds `PodReady(pod)`: `PodConditionMatch(pod, v1.PodReady, v1.ConditionTrue)`. -/
def Condition.PodReady (c : Condition) (pod : K8sObject) :
    Except GetError K8sObject → PollOutcome :=
  c.PodConditionMatch pod v1.PodReady v1.ConditionTrue

/-- Embeds `ContainersReady(pod)`: `PodConditionMatch(pod, v1.ContainersReady, v1.ConditionTrue)`. -/
def Condition.ContainersReady (c : Condition) (pod : K8sObject) :
    Except GetError K8sObject → PollOutcome :=
  c.PodConditionMatch pod v1.ContainersReady v1.ConditionTrue

/-- Embeds `PodRunning(pod)`: `PodPhaseMatch(pod, v1.PodRunning)`. -/
def Condition.PodRunning (c : Condition) (pod : K8sObject) :
    Except GetError K8sObject → PollOutcome :=
  c.PodPhaseMatch pod v1.PodRunning

/-- Embeds `JobCompleted(job)`: `JobConditionMatch(job, batchv1.JobComplete, v1.ConditionTrue)`. -/
def Condition.JobCompleted (c : Condition) (job : K8sObject) :
    Except GetError K8sObject → PollOutcome :=
  c.JobConditionMatch job batchv1.JobComplete v1.ConditionTrue

/-- Embeds `JobFailed(job)`: `JobConditionMatch(job, batchv1.JobFailed, v1.ConditionTrue)`. -/
def Condition.JobFailed (c : Condition) (job : K8sObject) :
    Except GetError K8sObject → PollOutcome :=
  c.JobConditionMatch job batchv1.JobFailed v1.ConditionTrue

/-- The condition-scanning loop of the Go source (`for ... { if match then
done = true }`) is a left fold; it computes `b || l.any p` for initial
accumulator `b`. -/
theorem foldl_if_or {α : Type} (p : α → Bool) (l : List α) (b : Bool) :
    l.foldl (fun done x => if p x then true else done) b = (b || l.any p) := by
  induction l generalizing b with
  | nil => simp
  | cons a t ih =>
    simp only [List.foldl_cons, ih, List.any_cons]
    cases p a <;> cases b <;> simp

/-- C1: the predicate returned by ResourceDeleted returns (true, nil)
when the fetch fails with a not-found error, returns (false, err)
propagating the error when the fetch fails with any other error, and
returns (false, nil) when the fetch succeeds. -/
theorem resourceDeleted_error_policy (c : Condition) (obj fetched : K8sObject)
    (e : GetError) :
    (errors.IsNotFound e = true →
      (c.ResourceDeleted obj (.error e)).result = .ret true none) ∧
    (errors.IsNotFound e = false →
      (c.ResourceDeleted obj (.error e)).result = .ret false (some e)) ∧
    (c.ResourceDeleted obj (.ok fetched)).result = .ret false none := by
  refine ⟨fun h => ?_, fun h => ?_, ?_⟩
  · simp [Condition.ResourceDeleted, h]
  · simp [Condition.ResourceDeleted, h]
  · simp [Condition.ResourceDeleted]

/-- C1 witness: evaluation at a concrete object, a NotFound error, a
Forbidden error, and a successful fetch. -/
theorem resourceDeleted_error_policy_witness :
    (Condition.New.ResourceDeleted (.generic "a" "ns") (.error ⟨"NotFound"⟩)).result =
      .ret true none ∧
    (Condition.New.ResourceDeleted (.generic "a" "ns") (.error ⟨"Forbidden"⟩)).result =
      .ret false (some ⟨"Forbidden"⟩) ∧
    (Condition.New.ResourceDeleted (.generic "a" "ns") (.ok (.generic "a" "ns"))).result =
      .ret false none :=
  ⟨(resourceDeleted_error_policy Condition.New (.generic "a" "ns") (.generic "a" "ns")
      ⟨"NotFound"⟩).1 (by decide),
   (resourceDeleted_error_policy Condition.New (.generic "a" "ns") (.generic "a" "ns")
      ⟨"Forbidden"⟩).2.1 (by decide),
   (resourceDeleted_error_policy Condition.New (.generic "a" "ns") (.generic "a" "ns")
      ⟨"Forbidden"⟩).2.2⟩

/-- C2: on a successful fetch, the predicate returned by ResourceScaled
returns (true, nil) iff scaleFetcher applied to the freshly fetched
object equals replica, and returns (false, nil) for any other value. -/
theorem resourceScaled_success (c : Condition) (obj fetched : K8sObject)
    (scaleFetcher : K8sObject → Int) (replica : Int) :
    ((c.ResourceScaled obj scaleFetcher replica (.ok fetched)).result = .ret true none ↔
      scaleFetcher fetched = replica) ∧
    (scaleFetcher fetched ≠ replica →
      (c.ResourceScaled obj scaleFetcher replica (.ok fetched)).result = .ret false none) := by
  constructor
  · simp [Condition.ResourceScaled]
  · intro h
    simp [Condition.ResourceScaled, h]

/-- C2 witness: evaluation at a concrete scale fetcher returning 3 with
target replica 4. -/
theorem resourceScaled_success_witness :
    (Condition.New.ResourceScaled (.generic "a" "ns") (fun _ => 3) 4
      (.ok (.generic "a" "ns"))).result = .ret false none :=
  (resourceScaled_success Condition.New (.generic "a" "ns") (.generic "a" "ns")
    (fun _ => 3) 4).2 (by decide)

/-- C3: on any fetch error, ResourceScaled swallows the error and
returns (false, nil), while JobConditionMatch, PodConditionMatch and
PodPhaseMatch propagate the error as (false, err). -/
theorem fetch_error_propagation (c : Condition) (obj : K8sObject)
    (scaleFetcher : K8sObject → Int) (replica : Int)
    (conditionType conditionState phase : String) (e : GetError) :
    (c.ResourceScaled obj scaleFetcher replica (.error e)).result = .ret false none ∧
    (c.JobConditionMatch obj conditionType conditionState (.error e)).result =
      .ret false (some e) ∧
    (c.PodConditionMatch obj conditionType conditionState (.error e)).result =
      .ret false (some e) ∧
    (c.PodPhaseMatch obj phase (.error e)).result = .ret false (some e) := by
  refine ⟨?_, ?_, ?_, ?_⟩ <;>
    simp [Condition.ResourceScaled, Condition.JobConditionMatch,
      Condition.PodConditionMatch, Condition.PodPhaseMatch]

/-- On a successful fetch of a Job, JobConditionMatch returns done equal
to an existential scan of the status condition list, with a nil error. -/
theorem jobConditionMatch_ok_result (c : Condition) (obj : K8sObject)
    (T S : String) (j : Job) :
    (c.JobConditionMatch obj T S (.ok (.job j))).result =
      .ret (j.status.conditions.any fun cond => cond.type == T && cond.status == S) none := by
  have h0 : (c.JobConditionMatch obj T S (.ok (.job j))).result =
      .ret (j.status.conditions.foldl
        (fun done cond => if cond.type == T && cond.status == S then true else done)
        false) none := rfl
  rw [h0, foldl_if_or]
  simp

/-- On a successful fetch of a Pod, PodConditionMatch returns done equal
to an existential scan of the status condition list, with a nil error. -/
theorem podConditionMatch_ok_result (c : Condition) (obj : K8sObject)
    (T S : String) (p : Pod) :
    (c.PodConditionMatch obj T S (.ok (.pod p))).result =
      .ret (p.status.conditions.any fun cond => cond.type == T && cond.status == S) none := by
  have h0 : (c.PodConditionMatch obj T S (.ok (.pod p))).result =
      .ret (p.status.conditions.foldl
        (fun done cond => if cond.type == T && cond.status == S then true else done)
        false) none := rfl
  rw [h0, foldl_if_or]
  simp

/-- C4: on a successful fetch, PodConditionMatch returns done = true iff
the pod status condition list contains at least one entry with the given
type and status (an empty list yields (false, nil)), and the same
existential rule holds for JobConditionMatch over the job status
condition list. -/
theorem conditionMatch_existential (c : Condition) (obj : K8sObject)
    (T S : String) (p : Pod) (j : Job) :
    ((c.PodConditionMatch obj T S (.ok (.pod p))).result =
        .ret (p.status.conditions.any fun cond => cond.type == T && cond.status == S) none) ∧
    ((c.PodConditionMatch obj T S (.ok (.pod p))).result = .ret true none ↔
        ∃ cond ∈ p.status.conditions, cond.type = T ∧ cond.status = S) ∧
    (p.status.conditions = [] →
        (c.PodConditionMatch obj T S (.ok (.pod p))).result = .ret false none) ∧
    ((c.JobConditionMatch obj T S (.ok (.job j))).result = .ret true none ↔
        ∃ cond ∈ j.status.conditions, cond.type = T ∧ cond.status = S) := by
  have hp := podConditionMatch_ok_result c obj T S p
  have hj := jobConditionMatch_ok_result c obj T S j
  refine ⟨hp, ?_, fun h => ?_, ?_⟩
  · rw [hp]
    simp [List.any_eq_true]
  · rw [hp, h]
    simp
  · rw [hj]
    simp [List.any_eq_true]

/-- C4 witness: a pod with an empty condition list yields (false, nil). -/
theorem conditionMatch_existential_witness :
    (Condition.New.PodConditionMatch (.generic "a" "ns") "Ready" "True"
      (.ok (.pod ⟨"p", "ns", ⟨"Pending", []⟩⟩))).result = .ret false none :=
  (conditionMatch_existential Condition.New (.generic "a" "ns") "Ready" "True"
    ⟨"p", "ns", ⟨"Pending", []⟩⟩ ⟨"j", "ns", ⟨[]⟩⟩).2.2.1 rfl

/-- C5: on a successful fetch, PodPhaseMatch returns done = true iff the
fetched pod status phase equals the given phase, and (false, nil)
otherwise. -/
theorem podPhaseMatch_spec (c : Condition) (obj : K8sObject)
    (phase : String) (p : Pod) :
    ((c.PodPhaseMatch obj phase (.ok (.pod p))).result =
        .ret (p.status.phase == phase) none) ∧
    ((c.PodPhaseMatch obj phase (.ok (.pod p))).result = .ret true none ↔
        p.status.phase = phase) ∧
    (p.status.phase ≠ phase →
        (c.PodPhaseMatch obj phase (.ok (.pod p))).result = .ret false none) := by
  refine ⟨?_, ?_, fun h => ?_⟩
  · simp [Condition.PodPhaseMatch]
  · simp [Condition.PodPhaseMatch]
  · simp [Condition.PodPhaseMatch, h]

/-- C5 witness: a pod in phase Pending does not match phase Running. -/
theorem podPhaseMatch_spec_witness :
    (Condition.New.PodPhaseMatch (.generic "a" "ns") "Running"
      (.ok (.pod ⟨"p", "ns", ⟨"Pending", []⟩⟩))).result = .ret false none :=
  (podPhaseMatch_spec Condition.New (.generic "a" "ns") "Running"
    ⟨"p", "ns", ⟨"Pending", []⟩⟩).2.2 (by decide)

/-- C6: the derived convenience predicates equal fixed parameterizations
of the general factories: PodReady = PodConditionMatch(Ready, True),
ContainersReady = PodConditionMatch(ContainersReady, True),
PodRunning = PodPhaseMatch(Running), JobCompleted =
JobConditionMatch(Complete, True), JobFailed =
JobConditionMatch(Failed, True). -/
theorem derived_predicates_eq (c : Condition) (pod job : K8sObject)
    (fetch : Except GetError K8sObject) :
    c.PodReady pod fetch = c.PodConditionMatch pod v1.PodReady v1.ConditionTrue fetch ∧
    c.ContainersReady pod fetch =
      c.PodConditionMatch pod v1.ContainersReady v1.ConditionTrue fetch ∧
    c.PodRunning pod fetch = c.PodPhaseMatch pod v1.PodRunning fetch ∧
    c.JobCompleted job fetch =
      c.JobConditionMatch job batchv1.JobComplete v1.ConditionTrue fetch ∧
    c.JobFailed job fetch =
      c.JobConditionMatch job batchv1.JobFailed v1.ConditionTrue fetch :=
  ⟨rfl, rfl, rfl, rfl, rfl⟩

/-- A return with a nil error satisfies the no-done-with-error invariant. -/
theorem errNonNil_ret_none (d : Bool) :
    (PredResult.ret d none).errNonNilImpliesNotDone = true := by
  cases d <;> rfl

/-- A return with done = false satisfies the no-done-with-error invariant. -/
theorem errNonNil_ret_false (e : Option GetError) :
    (PredResult.ret false e).errNonNilImpliesNotDone = true := by
  cases e <;> rfl

/-- A panic satisfies the no-done-with-error invariant vacuously. -/
theorem errNonNil_panic (m : String) :
    (PredResult.panicked m).errNonNilImpliesNotDone = true := rfl

/-- C7: every predicate produced by every factory and derived helper
maintains the invariant that a non-nil returned error comes with
done = false; no predicate ever returns (true, err) with err non-nil. -/
theorem no_done_with_error (c : Condition) (obj : K8sObject)
    (scaleFetcher : K8sObject → Int) (replica : Int) (T S phase : String)
    (fetch : Except GetError K8sObject) :
    (c.ResourceScaled obj scaleFetcher replica fetch).result.errNonNilImpliesNotDone = true ∧
    (c.ResourceDeleted obj fetch).result.errNonNilImpliesNotDone = true ∧
    (c.JobConditionMatch obj T S fetch).result.errNonNilImpliesNotDone = true ∧
    (c.PodConditionMatch obj T S fetch).result.errNonNilImpliesNotDone = true ∧
    (c.PodPhaseMatch obj phase fetch).result.errNonNilImpliesNotDone = true ∧
    (c.PodReady obj fetch).result.errNonNilImpliesNotDone = true ∧
    (c.ContainersReady obj fetch).result.errNonNilImpliesNotDone = true ∧
    (c.PodRunning obj fetch).result.errNonNilImpliesNotDone = true ∧
    (c.JobCompleted obj fetch).result.errNonNilImpliesNotDone = true ∧
    (c.JobFailed obj fetch).result.errNonNilImpliesNotDone = true := by
  refine ⟨?_, ?_, ?_, ?_, ?_, ?_, ?_, ?_, ?_, ?_⟩ <;>
  rcases fetch with e | (p2 | j2 | ⟨nm, ns⟩) <;>
  first
    | exact errNonNil_ret_none _
    | exact errNonNil_ret_false _
    | exact errNonNil_panic _
    | (cases h : errors.IsNotFound e <;>
        simp [Condition.ResourceDeleted, h, PredResult.errNonNilImpliesNotDone])

/-- C8: the dynamic type assertion in JobConditionMatch, PodConditionMatch
and PodPhaseMatch is not guarded: when the fetched object is of the
expected kind the predicate returns normally, and for an object of any
other kind whose fetch succeeds it panics instead of returning an error. -/
theorem type_assertion_unguarded (c : Condition) (obj : K8sObject)
    (T S phase : String) (p : Pod) (j : Job) (nm ns : String) :
    (c.JobConditionMatch obj T S (.ok (.job j))).result.isPanic = false ∧
    (c.JobConditionMatch obj T S (.ok (.pod p))).result.isPanic = true ∧
    (c.JobConditionMatch obj T S (.ok (.generic nm ns))).result.isPanic = true ∧
    (c.PodConditionMatch obj T S (.ok (.pod p))).result.isPanic = false ∧
    (c.PodConditionMatch obj T S (.ok (.job j))).result.isPanic = true ∧
    (c.PodConditionMatch obj T S (.ok (.generic nm ns))).result.isPanic = true ∧
    (c.PodPhaseMatch obj phase (.ok (.pod p))).result.isPanic = false ∧
    (c.PodPhaseMatch obj phase (.ok (.job j))).result.isPanic = true ∧
    (c.PodPhaseMatch obj phase (.ok (.generic nm ns))).result.isPanic = true :=
  ⟨rfl, rfl, rfl, rfl, rfl, rfl, rfl, rfl, rfl⟩

/-- C9: on the same successfully fetched job state, JobConditionMatch
for (Complete, True) and for (Failed, True) both return done = true iff
the job status condition list contains both a (Complete, True) entry and
a (Failed, True) entry simultaneously. -/
theorem jobComplete_jobFailed_mutual (c : Condition) (obj : K8sObject) (j : Job) :
    ((c.JobConditionMatch obj batchv1.JobComplete v1.ConditionTrue
        (.ok (.job j))).result = .ret true none ∧
     (c.JobConditionMatch obj batchv1.JobFailed v1.ConditionTrue
        (.ok (.job j))).result = .ret true none) ↔
    ((∃ cond ∈ j.status.conditions,
        cond.type = batchv1.JobComplete ∧ cond.status = v1.ConditionTrue) ∧
     (∃ cond ∈ j.status.conditions,
        cond.type = batchv1.JobFailed ∧ cond.status = v1.ConditionTrue)) := by
  rw [jobConditionMatch_ok_result, jobConditionMatch_ok_result]
  simp [List.any_eq_true]

/-- C10: the verbose flag does not interfere with predicate results: for
every factory and every input, the result returned under a Condition
with verbose enabled via WithVerboseLog equals the result returned under
any other Condition, in particular one with verbose disabled; the flag
gates only the log output. -/
theorem verbose_noninterference (c1 c2 : Condition) (obj : K8sObject)
    (scaleFetcher : K8sObject → Int) (replica : Int) (T S phase : String)
    (fetch : Except GetError K8sObject) :
    (c1.WithVerboseLog.ResourceScaled obj scaleFetcher replica fetch).result =
      (c2.ResourceScaled obj scaleFetcher replica fetch).result ∧
    (c1.WithVerboseLog.ResourceDeleted obj fetch).result =
      (c2.ResourceDeleted obj fetch).result ∧
    (c1.WithVerboseLog.JobConditionMatch obj T S fetch).result =
      (c2.JobConditionMatch obj T S fetch).result ∧
    (c1.WithVerboseLog.PodConditionMatch obj T S fetch).result =
      (c2.PodConditionMatch obj T S fetch).result ∧
    (c1.WithVerboseLog.PodPhaseMatch obj phase fetch).result =
      (c2.PodPhaseMatch obj phase fetch).result ∧
    (c1.WithVerboseLog.PodReady obj fetch).result =
      (c2.PodReady obj fetch).result ∧
    (c1.WithVerboseLog.ContainersReady obj fetch).result =
      (c2.ContainersReady obj fetch).result ∧
    (c1.WithVerboseLog.PodRunning obj fetch).result =
      (c2.PodRunning obj fetch).result ∧
    (c1.WithVerboseLog.JobCompleted obj fetch).result =
      (c2.JobCompleted obj fetch).result ∧
    (c1.WithVerboseLog.JobFailed obj fetch).result =
      (c2.JobFailed obj fetch).result := by
  refine ⟨?_, ?_, ?_, ?_, ?_, ?_, ?_, ?_, ?_, ?_⟩ <;>
  rcases fetch with e | (p2 | j2 | ⟨nm, ns⟩) <;>
  first
    | rfl
    | (cases h : errors.IsNotFound e <;>
        simp [Condition.ResourceDeleted, h])

end Conditions
